import Mathlib

/-
  Shallow embedding of the ML inference service:
  - `app/model_loader.py` (ModelLoader singleton, load/predict/version operations)
  - `app/schemas.py` (PredictionRequest field validation)
  - `app/main.py` (predict and health endpoints, exception dispatch, logging middleware)

  Feature values are modelled as rationals; the validator never inspects values,
  only the shape of the list, so no floating-point behaviour is relevant to the
  properties proved here. A loaded model object is modelled by its capability
  surface: whether it has a `predict` attribute, whether it has `predict_proba`,
  and the outcome of invoking each (an `Except` whose error constructor stands
  for a raised exception, which the source catches).
-/

namespace MLAPI

/-- Capability surface of the object stored in `ModelLoader._model`:
`hasPredict` models `hasattr(self._model, 'predict')`, `hasPredictProba`
models `hasattr(self._model, 'predict_proba')`, and the two functions model
invoking those methods, with `Except.error` standing for a raised exception. -/
structure SkModel where
  hasPredict : Bool
  hasPredictProba : Bool
  predictFn : List ℚ → Except Unit ℚ
  predictProbaFn : List ℚ → Except Unit ℚ

/-- The mutable state of the ModelLoader singleton: `_model` and `_model_version`. -/
structure LoaderState where
  model : Option SkModel
  version : String

/-- Class-attribute defaults of `ModelLoader`: `_model = None`, `_model_version = "v1.0.0"`. -/
def initState : LoaderState := ⟨none, "v1.0.0"⟩

/-- The dictionary returned by a successful `ModelLoader.predict`. -/
structure PredResult where
  prediction : ℚ
  probability : Option ℚ
  model_version : String
deriving DecidableEq

/-- True when an `Except` outcome models a raised exception. -/
def exceptFailed : Except Unit ℚ → Bool
  | .error _ => true
  | .ok _ => false

namespace ModelLoader

/-- Embeds `ModelLoader.predict` from `app/model_loader.py`: returns `none`
(Python `None`) when no model is loaded, when the model lacks a `predict`
attribute, or when an invoked method raises; otherwise returns the result
dictionary, with `probability` filled only when `predict_proba` is exposed. -/
def predict (s : LoaderState) (features : List ℚ) : Option PredResult :=
  match s.model with
  | none => none
  | some m =>
    if m.hasPredict then
      match m.predictFn features with
      | .error _ => none
      | .ok pred =>
        if m.hasPredictProba then
          match m.predictProbaFn features with
          | .error _ => none
          | .ok proba => some ⟨pred, some proba, s.version⟩
        else some ⟨pred, none, s.version⟩
    else none

/-- Embeds `ModelLoader.is_loaded`: `self._model is not None`. -/
def is_loaded (s : LoaderState) : Bool := s.model.isSome

/-- Embeds `ModelLoader.get_model_version`: returns `self._model_version`. -/
def get_model_version (s : LoaderState) : String := s.version

/-- Embeds `ModelLoader.set_model_version`. -/
def set_model_version (v : String) (s : LoaderState) : LoaderState :=
  { s with version := v }

/-- Environment of a `load_sklearn_model` call: whether the path exists, and
the outcome of `pickle.load` (`none` models a raised deserialization error). -/
structure LoadEnv where
  pathExists : Bool
  artifact : Option SkModel

/-- Embeds `ModelLoader.load_sklearn_model`: returns the updated state and the
Bool result. A missing path or a raised `pickle.load` returns `False` and
leaves the state untouched; success assigns `self._model` only. -/
def load_sklearn_model (env : LoadEnv) (s : LoaderState) : LoaderState × Bool :=
  if env.pathExists then
    match env.artifact with
    | some m => ({ s with model := some m }, true)
    | none => (s, false)
  else (s, false)

/-- Environment of a `create_demo_model` call: the trained demo classifier, or
`none` when training raises (caught, returns `False`, state untouched). -/
structure DemoEnv where
  trained : Option SkModel

/-- Embeds `ModelLoader.create_demo_model`: on success assigns `self._model`
and sets `self._model_version = "demo"`. -/
def create_demo_model (env : DemoEnv) (s : LoaderState) : LoaderState × Bool :=
  match env.trained with
  | some m => (⟨some m, "demo"⟩, true)
  | none => (s, false)

/-- Class-level slot `ModelLoader._instance`, holding the identity of the one
constructed instance (identities modelled as naturals). -/
structure ClassState where
  instanceSlot : Option Nat

/-- Embeds `ModelLoader.__new__`: if `_instance is None` a fresh instance is
stored and returned; otherwise the stored instance is returned unchanged. -/
def new (c : ClassState) (fresh : Nat) : ClassState × Nat :=
  match c.instanceSlot with
  | none => (⟨some fresh⟩, fresh)
  | some i => (c, i)

end ModelLoader

/-- The state-mutating operations exposed by the loader. -/
inductive LoaderOp
  | loadSklearn (env : ModelLoader.LoadEnv)
  | createDemo (env : ModelLoader.DemoEnv)
  | setVersion (v : String)

/-- Apply one loader operation to the singleton state. -/
def applyOp : LoaderOp → LoaderState → LoaderState
  | .loadSklearn env, s => (ModelLoader.load_sklearn_model env s).1
  | .createDemo env, s => (ModelLoader.create_demo_model env s).1
  | .setVersion v, s => ModelLoader.set_model_version v s

/-- One element of the inbound `features` JSON array: a numeric value, or
something pydantic cannot coerce to float. -/
inductive JsonItem
  | num (q : ℚ)
  | nonNumeric
deriving DecidableEq

/-- The raw request body of `POST /predict` before parsing: each field either
absent or present. -/
structure RawBody where
  features : Option (List JsonItem)
  model_version : Option String

/-- The ways pydantic request parsing of `PredictionRequest` can fail; all of
them surface as a framework 422 response before handler code runs. -/
inductive SchemaError
  | missingField
  | typeError
  | valueError (msg : String)
deriving DecidableEq

/-- A parsed `PredictionRequest` (schemas.py): validated features and the
`model_version` field with its default `"latest"`. -/
structure PredictionRequest where
  features : List ℚ
  model_version : String
deriving DecidableEq

/-- Pydantic float coercion of one array element. -/
def coerceItem : JsonItem → Option ℚ
  | .num q => some q
  | .nonNumeric => none

/-- Pydantic coercion of the whole `List[float]` field: fails if any element
is non-numeric. -/
def coerceAll : List JsonItem → Option (List ℚ)
  | [] => some []
  | it :: rest =>
    match coerceItem it, coerceAll rest with
    | some q, some qs => some (q :: qs)
    | _, _ => none

/-- Embeds `PredictionRequest.validate_features` from `app/schemas.py`: an
empty list raises `ValueError("Features list cannot be empty")` first; then a
list whose length is not 4 raises `ValueError("Expected exactly 4 features")`. -/
def validate_features (v : List ℚ) : Except String (List ℚ) :=
  if v = [] then .error "Features list cannot be empty"
  else if v.length ≠ 4 then .error "Expected exactly 4 features"
  else .ok v

/-- The full request-parsing layer for `POST /predict`: field presence, float
coercion, then the field validator. Any failure is a schema-level error that
FastAPI turns into a 422 before the handler runs. -/
def parseRequest (body : RawBody) : Except SchemaError PredictionRequest :=
  match body.features with
  | none => .error .missingField
  | some items =>
    match coerceAll items with
    | none => .error .typeError
    | some qs =>
      match validate_features qs with
      | .error msg => .error (.valueError msg)
      | .ok v => .ok ⟨v, body.model_version.getD "latest"⟩

/-- The `PredictionResponse` schema. -/
structure PredictionResponse where
  prediction : ℚ
  probability : Option ℚ
  model_version : String
  input_features : List ℚ
deriving DecidableEq

/-- The `HealthCheckResponse` schema. -/
structure HealthCheckResponse where
  status : String
  model_loaded : Bool
  model_version : Option String
deriving DecidableEq

/-- The body of an HTTP response produced by the service. -/
inductive ResponseBody
  | predictionOut (p : PredictionResponse)
  | healthOut (h : HealthCheckResponse)
  | errorOut (detail : String) (error_code : Option String)
deriving DecidableEq

/-- An HTTP response: status code and body. -/
structure HttpResponse where
  statusCode : Nat
  body : ResponseBody
deriving DecidableEq

/-- Rendering of a schema-level failure into the 422 detail message. -/
def schemaErrDetail : SchemaError → String
  | .missingField => "field required"
  | .typeError => "value is not a valid float"
  | .valueError msg => msg

/-- The `error_code` field of a response body, when the body is the error
envelope. -/
def errCodeOf : HttpResponse → Option String
  | ⟨_, .errorOut _ c⟩ => c
  | _ => none

/-- The `model_version` field of a health response body. -/
def healthVersionOf : HttpResponse → Option String
  | ⟨_, .healthOut h⟩ => h.model_version
  | _ => none

/-- What the `predict` handler body in `app/main.py` does once it runs:
either returns a response or raises. -/
inductive HandlerOutcome
  | ok (r : HttpResponse)
  | httpException (code : Nat) (detail : String)
  | valueErrorRaised (msg : String)
  | otherException (msg : String)

/-- Embeds the `predict` handler of `app/main.py`: 503 if the loader is not
loaded, 500 if `ModelLoader.predict` returns `None`, otherwise a 200
`PredictionResponse` echoing `request.features` into `input_features`. -/
def predictHandler (s : LoaderState) (req : PredictionRequest) : HandlerOutcome :=
  if !ModelLoader.is_loaded s then
    .httpException 503 "Model is not loaded. Please check health endpoint."
  else
    match ModelLoader.predict s req.features with
    | none => .httpException 500 "Error during prediction. Check logs for details."
    | some result =>
      .ok ⟨200, .predictionOut
        ⟨result.prediction, result.probability, result.model_version, req.features⟩⟩

/-- Embeds the exception dispatch of `app/main.py`: `HTTPException` keeps its
status code and detail; a `ValueError` escaping a handler hits
`value_error_handler` (400, VALIDATION_ERROR); anything else hits
`general_exception_handler` (500, INTERNAL_ERROR). -/
def dispatchOutcome : HandlerOutcome → HttpResponse
  | .ok r => r
  | .httpException code detail => ⟨code, .errorOut detail none⟩
  | .valueErrorRaised msg => ⟨400, .errorOut msg (some "VALIDATION_ERROR")⟩
  | .otherException _ =>
      ⟨500, .errorOut "Internal server error. Check logs for details." (some "INTERNAL_ERROR")⟩

/-- The full `POST /predict` route: FastAPI request parsing first (any schema
failure is a 422 and the handler never runs), then the handler with exception
dispatch. -/
def predictRoute (s : LoaderState) (body : RawBody) : HttpResponse :=
  match parseRequest body with
  | .error e => ⟨422, .errorOut (schemaErrDetail e) none⟩
  | .ok req => dispatchOutcome (predictHandler s req)

/-- Embeds the `health_check` handler of `app/main.py`: always a 200 whose
body reports `healthy`/`degraded` and includes the version only when loaded. -/
def health_check (s : LoaderState) : HttpResponse :=
  ⟨200, .healthOut
    ⟨if ModelLoader.is_loaded s then "healthy" else "degraded",
     ModelLoader.is_loaded s,
     if ModelLoader.is_loaded s then some (ModelLoader.get_model_version s) else none⟩⟩

/-- A response together with the two observability headers set by the
middleware. -/
structure TimedResponse where
  response : HttpResponse
  x_process_time : ℚ
  x_request_id : String

/-- Embeds the `log_requests` middleware of `app/main.py` on the handled path:
the request id is read from the inbound `X-Request-ID` header with default
`"unknown"` before processing, and both headers are attached to the response
produced downstream, with `X-Process-Time` the elapsed seconds. -/
def log_requests (inboundRequestId : Option String) (startTime endTime : ℚ)
    (inner : HttpResponse) : TimedResponse :=
  ⟨inner, endTime - startTime, inboundRequestId.getD "unknown"⟩

/-- A request body whose `features` array holds the given numbers. -/
def numBody (feats : List ℚ) (mv : Option String) : RawBody :=
  ⟨some (feats.map JsonItem.num), mv⟩

/-- True when a method actually invoked by `ModelLoader.predict` raises: the
`predict` call itself, or the `predict_proba` call when that capability is
exposed. -/
def invocationRaises (m : SkModel) (f : List ℚ) : Bool :=
  exceptFailed (m.predictFn f) || (m.hasPredictProba && exceptFailed (m.predictProbaFn f))

/-- Second definition, following the words of the spec, for comparison with
`ModelLoader.get_model_version`: the current version tag, or absent if not
ready. -/
def version_specOpt (s : LoaderState) : Option String :=
  match s.model with
  | some _ => some s.version
  | none => none

/-- A model exposing both `predict` and `predict_proba`, deterministic. -/
def demoModel : SkModel :=
  ⟨true, true, fun _ => .ok 0, fun _ => .ok 1⟩

/-- Loader state after a successful `create_demo_model`. -/
def demoState : LoaderState := ⟨some demoModel, "demo"⟩

/-- A loaded object with no `predict` attribute and no raising method. -/
def noPredictModel : SkModel :=
  ⟨false, false, fun _ => .ok 0, fun _ => .ok 0⟩

/-- Loader state holding `noPredictModel`. -/
def noPredictState : LoaderState := ⟨some noPredictModel, "v1.0.0"⟩

/- Helper lemmas shared by the claim theorems. -/

/-- Float coercion of an all-numeric array succeeds and returns the numbers. -/
theorem coerceAll_map_num (l : List ℚ) : coerceAll (l.map JsonItem.num) = some l := by
  induction l with
  | nil => rfl
  | cons q rest ih => simp [coerceAll, coerceItem, ih]

/-- The field validator rejects every list whose length is not 4, with the
empty-list message taking precedence. -/
theorem validate_features_ne4 (feats : List ℚ) (h : feats.length ≠ 4) :
    validate_features feats =
      .error (if feats = [] then "Features list cannot be empty"
              else "Expected exactly 4 features") := by
  by_cases hE : feats = []
  · simp [validate_features, hE]
  · simp [validate_features, hE, h]

/-- The field validator accepts exactly the lists of length 4. -/
theorem validate_features_len4 (feats : List ℚ) (h : feats.length = 4) :
    validate_features feats = .ok feats := by
  have hne : feats ≠ [] := by
    intro hE
    rw [hE] at h
    simp at h
  simp [validate_features, hne, h]

/-- Parsing an all-numeric body of wrong arity fails at the schema layer. -/
theorem parseRequest_numBody_ne4 (feats : List ℚ) (mv : Option String)
    (h : feats.length ≠ 4) :
    parseRequest (numBody feats mv) =
      .error (.valueError (if feats = [] then "Features list cannot be empty"
                           else "Expected exactly 4 features")) := by
  simp [parseRequest, numBody, coerceAll_map_num, validate_features_ne4 feats h]

/-- Parsing an all-numeric body of length 4 succeeds. -/
theorem parseRequest_numBody_ok (feats : List ℚ) (mv : Option String)
    (h : feats.length = 4) :
    parseRequest (numBody feats mv) = .ok ⟨feats, mv.getD "latest"⟩ := by
  simp [parseRequest, numBody, coerceAll_map_num, validate_features_len4 feats h]

/- Claim theorems. -/

/-- C1: for every feature vector whose length is not 4 (including the empty
vector), `POST /predict` returns 422 and never 200, in every loader state:
the request-parsing validator rejects the request before the handler runs. -/
theorem c1_wrong_arity_422 (s : LoaderState) (feats : List ℚ) (mv : Option String)
    (h : feats.length ≠ 4) :
    (predictRoute s (numBody feats mv)).statusCode = 422 ∧
    (predictRoute s (numBody feats mv)).statusCode ≠ 200 := by
  have hp := parseRequest_numBody_ne4 feats mv h
  exact ⟨by simp [predictRoute, hp], by simp [predictRoute, hp]⟩

/-- C1 witness: a two-element vector is rejected with 422 even with a loaded
model. -/
theorem c1_wrong_arity_422_witness :
    (predictRoute demoState (numBody [(1:ℚ), 2] none)).statusCode = 422 ∧
    (predictRoute demoState (numBody [(1:ℚ), 2] none)).statusCode ≠ 200 :=
  c1_wrong_arity_422 demoState [(1:ℚ), 2] none (by decide)

/-- C2: for every well-formed 4-element numeric vector, when the registry has
no active model, `POST /predict` returns 503, never 500 and never 200. -/
theorem c2_unloaded_503 (s : LoaderState) (feats : List ℚ) (mv : Option String)
    (hm : s.model = none) (hlen : feats.length = 4) :
    (predictRoute s (numBody feats mv)).statusCode = 503 ∧
    (predictRoute s (numBody feats mv)).statusCode ≠ 500 ∧
    (predictRoute s (numBody feats mv)).statusCode ≠ 200 := by
  have hp := parseRequest_numBody_ok feats mv hlen
  refine ⟨?_, ?_, ?_⟩ <;>
    simp [predictRoute, hp, predictHandler, ModelLoader.is_loaded, hm, dispatchOutcome]

/-- C2 witness: a valid request against the unloaded initial state yields 503. -/
theorem c2_unloaded_503_witness :
    (predictRoute initState (numBody [(1:ℚ), 2, 3, 4] none)).statusCode = 503 ∧
    (predictRoute initState (numBody [(1:ℚ), 2, 3, 4] none)).statusCode ≠ 500 ∧
    (predictRoute initState (numBody [(1:ℚ), 2, 3, 4] none)).statusCode ≠ 200 :=
  c2_unloaded_503 initState [(1:ℚ), 2, 3, 4] none rfl (by decide)

/-- C3: for every well-formed 4-element numeric vector, when the registry is
loaded and the model invocation succeeds, `POST /predict` returns 200 and the
response body echoes the submitted vector into `input_features` unchanged. -/
theorem c3_success_echo (s : LoaderState) (feats : List ℚ) (mv : Option String)
    (r : PredResult) (hlen : feats.length = 4)
    (hl : ModelLoader.is_loaded s = true)
    (hpredict : ModelLoader.predict s feats = some r) :
    predictRoute s (numBody feats mv) =
      ⟨200, .predictionOut ⟨r.prediction, r.probability, r.model_version, feats⟩⟩ := by
  have hp := parseRequest_numBody_ok feats mv hlen
  simp [predictRoute, hp, predictHandler, hl, hpredict, dispatchOutcome]

/-- C3 witness: the demo state answers a concrete valid request with 200 and
echoes the input features. -/
theorem c3_success_echo_witness :
    predictRoute demoState (numBody [(1:ℚ), 2, 3, 4] none) =
      ⟨200, .predictionOut ⟨0, some 1, "demo", [(1:ℚ), 2, 3, 4]⟩⟩ :=
  c3_success_echo demoState [(1:ℚ), 2, 3, 4] none ⟨0, some 1, "demo"⟩
    (by decide) rfl rfl

/-- C4: `GET /health` always returns 200; its body has `model_loaded = true`
and `status = "healthy"` exactly when the registry holds an active model, and
otherwise `model_loaded = false`, `status = "degraded"` and no version. -/
theorem c4_health_status (s : LoaderState) :
    (health_check s).statusCode = 200 ∧
    ∃ h : HealthCheckResponse, (health_check s).body = .healthOut h ∧
      ((h.model_loaded = true ∧ h.status = "healthy") ↔ s.model.isSome = true) ∧
      ((h.model_loaded = false ∧ h.status = "degraded" ∧ h.model_version = none) ↔
        s.model.isSome = false) := by
  obtain ⟨mo, ver⟩ := s
  cases mo with
  | none =>
    exact ⟨rfl, ⟨"degraded", false, none⟩, rfl, by simp, by simp⟩
  | some m =>
    exact ⟨rfl, ⟨"healthy", true, some ver⟩, rfl, by simp, by simp⟩

/-- C5 counterexample: the claimed "fails iff no handle is active or the
invocation raises" is false: a loaded object with no `predict` attribute makes
`ModelLoader.predict` fail although a handle is active and nothing raises. -/
theorem c5_counterexample :
    ModelLoader.predict noPredictState [(1:ℚ), 2, 3, 4] = none ∧
    noPredictState.model.isSome = true ∧
    invocationRaises noPredictModel [(1:ℚ), 2, 3, 4] = false :=
  ⟨rfl, rfl, rfl⟩

/-- C5 amended: registry predict fails exactly when no model is active, the
model lacks a `predict` capability, or an invoked method raises; on success
the probability field is present exactly when `predict_proba` is exposed, and
is `none` (not a sentinel) otherwise. -/
theorem c5_predict_failure_iff (s : LoaderState) (f : List ℚ) :
    (ModelLoader.predict s f = none ↔
      s.model = none ∨
        ∃ m, s.model = some m ∧ (m.hasPredict = false ∨ invocationRaises m f = true)) ∧
    (∀ r : PredResult, ModelLoader.predict s f = some r →
      ∃ m, s.model = some m ∧ r.probability.isSome = m.hasPredictProba ∧
        (m.hasPredictProba = false → r.probability = none)) := by
  obtain ⟨mo, ver⟩ := s
  cases mo with
  | none =>
    constructor
    · simp [ModelLoader.predict]
    · intro r hr
      simp [ModelLoader.predict] at hr
  | some m =>
    obtain ⟨hp, hpp, pf, ppf⟩ := m
    cases hp with
    | false =>
      constructor
      · simp [ModelLoader.predict]
      · intro r hr
        simp [ModelLoader.predict] at hr
    | true =>
      cases hpf : pf f with
      | error e =>
        constructor
        · simp [ModelLoader.predict, invocationRaises, exceptFailed, hpf]
        · intro r hr
          simp [ModelLoader.predict, hpf] at hr
      | ok pred =>
        cases hpp with
        | false =>
          constructor
          · simp [ModelLoader.predict, invocationRaises, exceptFailed, hpf]
          · intro r hr
            simp [ModelLoader.predict, hpf] at hr
            exact ⟨⟨true, false, pf, ppf⟩, rfl, by simp [← hr], by simp [← hr]⟩
        | true =>
          cases hppf : ppf f with
          | error e2 =>
            constructor
            · simp [ModelLoader.predict, invocationRaises, exceptFailed, hpf, hppf]
            · intro r hr
              simp [ModelLoader.predict, hpf, hppf] at hr
          | ok proba =>
            constructor
            · simp [ModelLoader.predict, invocationRaises, exceptFailed, hpf, hppf]
            · intro r hr
              simp [ModelLoader.predict, hpf, hppf] at hr
              exact ⟨⟨true, true, pf, ppf⟩, rfl, by simp [← hr], by simp⟩

/-- C5 witness: applying the amended theorem at the demo state and a concrete
successful result shows the probability field present with `predict_proba`. -/
theorem c5_predict_failure_iff_witness :
    ∃ m, demoState.model = some m ∧
      (Option.some (1:ℚ)).isSome = m.hasPredictProba ∧
      (m.hasPredictProba = false → Option.some (1:ℚ) = none) :=
  (c5_predict_failure_iff demoState [(1:ℚ), 2, 3, 4]).2 ⟨0, some 1, "demo"⟩ rfl

/-- C6 counterexample: an empty features list produces a 422 schema-level
response, not the claimed 400 with error code VALIDATION_ERROR. -/
theorem c6_counterexample :
    (predictRoute demoState (numBody [] none)).statusCode = 422 ∧
    ¬((predictRoute demoState (numBody [] none)).statusCode = 400 ∧
      errCodeOf (predictRoute demoState (numBody [] none)) = some "VALIDATION_ERROR") := by
  constructor
  · rfl
  · intro hcontra
    simp [predictRoute, parseRequest, numBody, coerceAll, validate_features] at hcontra

/-- C6 amended: an empty features list is rejected by the field validator
before the arity check with the distinct message "Features list cannot be
empty", but the `ValueError` raised inside the validator is converted by the
request-parsing layer into a schema-level 422 with no error code: the
application's 400 VALIDATION_ERROR handler is never reached; nonempty lists of
wrong arity instead get the distinct arity message. -/
theorem c6_empty_schema_level (s : LoaderState) (mv : Option String) :
    parseRequest (numBody [] mv) = .error (.valueError "Features list cannot be empty") ∧
    (predictRoute s (numBody [] mv)).statusCode = 422 ∧
    errCodeOf (predictRoute s (numBody [] mv)) = none ∧
    (∀ feats : List ℚ, feats ≠ [] → feats.length ≠ 4 →
      parseRequest (numBody feats mv) = .error (.valueError "Expected exactly 4 features")) := by
  refine ⟨rfl, rfl, rfl, ?_⟩
  intro feats hne hlen
  rw [parseRequest_numBody_ne4 feats mv hlen]
  simp [hne]

/-- C6 witness: a nonempty two-element list gets the arity message. -/
theorem c6_empty_schema_level_witness :
    parseRequest (numBody [(1:ℚ), 2] none) =
      .error (.valueError "Expected exactly 4 features") :=
  (c6_empty_schema_level initState none).2.2.2 [(1:ℚ), 2] (by decide) (by decide)

/-- C7: on every handled request, the middleware sets `X-Request-ID` to the
inbound header value when supplied and to "unknown" otherwise, and sets
`X-Process-Time` to a non-negative elapsed-seconds value (the clock being
monotone across the request), leaving the inner response unchanged. -/
theorem c7_middleware_headers (rid : Option String) (t0 t1 : ℚ)
    (inner : HttpResponse) (hclock : t0 ≤ t1) :
    (∀ v, rid = some v → (log_requests rid t0 t1 inner).x_request_id = v) ∧
    (rid = none → (log_requests rid t0 t1 inner).x_request_id = "unknown") ∧
    0 ≤ (log_requests rid t0 t1 inner).x_process_time ∧
    (log_requests rid t0 t1 inner).response = inner := by
  refine ⟨?_, ?_, ?_, rfl⟩
  · intro v hv
    simp [log_requests, hv]
  · intro hv
    simp [log_requests, hv]
  · simpa [log_requests] using sub_nonneg.mpr hclock

/-- C7 witness: a supplied request id is echoed on a concrete health response. -/
theorem c7_middleware_headers_witness :
    (log_requests (some "req-1") 0 1 (health_check initState)).x_request_id = "req-1" :=
  (c7_middleware_headers (some "req-1") 0 1 (health_check initState)
    (by norm_num)).1 "req-1" rfl

/-- C8 counterexample: in the unloaded initial state the registry's version
operation still returns the string "v1.0.0", while the spec-level version
operation is absent — so `get_model_version` does not return an absent value
when the registry is not ready. -/
theorem c8_counterexample :
    ModelLoader.is_loaded initState = false ∧
    ModelLoader.get_model_version initState = "v1.0.0" ∧
    version_specOpt initState = none :=
  ⟨rfl, rfl, rfl⟩

/-- C8 amended: `get_model_version` always returns the stored version tag,
ready or not; when the registry is ready it agrees with the spec-level
optional version, and when it is not ready it still returns the stored tag —
the absence of the version is produced by the health handler, whose body then
carries no version, not by the registry. -/
theorem c8_version_total (s : LoaderState) :
    ModelLoader.get_model_version s = s.version ∧
    (ModelLoader.is_loaded s = true →
      version_specOpt s = some (ModelLoader.get_model_version s)) ∧
    (ModelLoader.is_loaded s = false →
      version_specOpt s = none ∧
      ModelLoader.get_model_version s = s.version ∧
      healthVersionOf (health_check s) = none) := by
  obtain ⟨mo, ver⟩ := s
  cases mo with
  | none => exact ⟨rfl, by intro h; simp [ModelLoader.is_loaded] at h, fun _ => ⟨rfl, rfl, rfl⟩⟩
  | some m => exact ⟨rfl, fun _ => rfl, by intro h; simp [ModelLoader.is_loaded] at h⟩

/-- C8 witness: the ready demo state agrees with the spec-level version. -/
theorem c8_version_total_witness :
    version_specOpt demoState = some (ModelLoader.get_model_version demoState) :=
  (c8_version_total demoState).2.1 rfl

/-- C9: constructing the registry is a singleton operation: `__new__` always
stores and returns one instance, a second construction returns the stored
instance unchanged, and every loader operation leaves at most one model handle
active in the single shared model slot. -/
theorem c9_singleton :
    (∀ (c : ModelLoader.ClassState) (f : Nat),
      (ModelLoader.new c f).1.instanceSlot = some (ModelLoader.new c f).2) ∧
    (∀ (c : ModelLoader.ClassState) (i f : Nat), c.instanceSlot = some i →
      ModelLoader.new c f = (c, i)) ∧
    (∀ (c : ModelLoader.ClassState) (f1 f2 : Nat),
      (ModelLoader.new (ModelLoader.new c f1).1 f2).2 = (ModelLoader.new c f1).2) ∧
    (∀ (s : LoaderState) (op : LoaderOp),
      ((applyOp op s).model.toList).length ≤ 1) := by
  have hslot : ∀ (c : ModelLoader.ClassState) (f : Nat),
      (ModelLoader.new c f).1.instanceSlot = some (ModelLoader.new c f).2 := by
    intro c f
    obtain ⟨slot⟩ := c
    cases slot <;> rfl
  have hstored : ∀ (c : ModelLoader.ClassState) (i f : Nat),
      c.instanceSlot = some i → ModelLoader.new c f = (c, i) := by
    intro c i f h
    obtain ⟨slot⟩ := c
    cases slot with
    | none => simp at h
    | some j =>
      simp at h
      simp [ModelLoader.new, h]
  refine ⟨hslot, hstored, ?_, ?_⟩
  · intro c f1 f2
    rw [hstored (ModelLoader.new c f1).1 (ModelLoader.new c f1).2 f2 (hslot c f1)]
  · intro s op
    have honly : ∀ o : Option SkModel, o.toList.length ≤ 1 := by
      intro o
      cases o <;> simp
    exact honly _

/-- C9 witness: constructing against an occupied instance slot returns the
stored instance and leaves the slot unchanged. -/
theorem c9_singleton_witness :
    ModelLoader.new ⟨some 0⟩ 7 = (⟨some 0⟩, 0) :=
  c9_singleton.2.1 ⟨some 0⟩ 0 7 rfl

/-- C10: `load_sklearn_model` never changes the version tag — after any load,
successful or not, `get_model_version` returns what it returned before — and
a failed load (missing path or raised deserialization) leaves the whole state,
including the active model reference, unchanged. -/
theorem c10_load_frame (env : ModelLoader.LoadEnv) (s : LoaderState) :
    ModelLoader.get_model_version (ModelLoader.load_sklearn_model env s).1 =
      ModelLoader.get_model_version s ∧
    (ModelLoader.load_sklearn_model env s).1.version = s.version ∧
    ((ModelLoader.load_sklearn_model env s).2 = false →
      (ModelLoader.load_sklearn_model env s).1 = s) := by
  obtain ⟨pe, art⟩ := env
  cases pe with
  | false => exact ⟨rfl, rfl, fun _ => rfl⟩
  | true =>
    cases art with
    | none => exact ⟨rfl, rfl, fun _ => rfl⟩
    | some m =>
      refine ⟨rfl, rfl, ?_⟩
      intro hcontra
      simp [ModelLoader.load_sklearn_model] at hcontra

/-- C10 witness: a load against a missing path fails and leaves the initial
state unchanged, version included. -/
theorem c10_load_frame_witness :
    (ModelLoader.load_sklearn_model ⟨false, none⟩ initState).1 = initState :=
  (c10_load_frame ⟨false, none⟩ initState).2.2 rfl

end MLAPI
